import Mathlib

/-!
Shallow embedding of the CRUD layers of the activity backend
(repositories, validation middlewares, services and their route
composition) for the entities ProjectStatus, ServiceCompany, Timesheet,
Customer and ActivityManager, together with theorems settling the
specification claims about pagination, search, soft/hard deletion,
validation and error logging.

Conventions of the embedding:
- The document store of an entity is a `List` of records in database
  order; Mongoose queries become pure functions on that list.
- Document ids (`_id`) are modelled as `String`; MongoDB enforces their
  uniqueness, which appears as a `Nodup` hypothesis where it matters.
- `Date` and `ObjectId` reference values are carried opaquely as
  `String`; `Number` values are carried as `Int` (no arithmetic is
  performed on them anywhere in the modelled code).
- A fallible repository operation returns an `Except` value together
  with the list of `logError` calls it performed, each log entry being
  the pair (error message, structured label), exactly as in the
  `catch` blocks of the source.
- `populate(...)` joins are ignored: no modelled claim depends on them.
-/

namespace ActivityBackend

/-- One `logError(error, req, label)` call: (error message, label). -/
def LogEntry : Type := String × String

instance : DecidableEq LogEntry := instDecidableEqProd

/-- Pagination parameters as produced by the external `paginationHandler`. -/
structure IPagination where
  page : Nat
  limit : Nat
deriving DecidableEq

/-- Result shape of every repository list operation. -/
structure ListResult (α : Type) where
  data : List α
  totalCount : Nat
  currentPage : Nat
  totalPages : Nat
deriving DecidableEq

/-- `Math.ceil(n / l)` on the exact natural values involved. -/
def ceilDiv (n l : Nat) : Nat := (n + l - 1) / l

/-- `$regex: search, $options: "i"` with the pattern taken as literal
text: case-insensitive substring containment of `pattern` in `field`.
(A pattern containing regex metacharacters is outside this model.) -/
def regexMatchI (pattern field : String) : Bool :=
  decide (pattern.toList.map Char.toLower <:+: field.toList.map Char.toLower)

/-- `.skip((page - 1) * limit).limit(limit)` applied to the matching
records in database order; Mongoose applies `skip` before `limit`
regardless of the order the two modifiers are written in. -/
def paginate {α : Type} (l : List α) (page limit : Nat) : List α :=
  (l.drop ((page - 1) * limit)).take limit

/-- `findOneAndUpdate(filter, update, {new:true})`: update the first
record matching `p` with `f`, returning the updated record and the
updated store (or `none` and the reconstructed store when nothing
matches). -/
def findOneAndUpdateBy {α : Type} (p : α → Bool) (f : α → α) :
    List α → Option α × List α
  | [] => (none, [])
  | x :: xs =>
    if p x then (some (f x), f x :: xs)
    else
      let r := findOneAndUpdateBy p f xs
      (r.1, x :: r.2)

/-- `findOneAndDelete` / `findByIdAndDelete`: physically remove the
first record matching `p`, returning the removed record and the
remaining store. -/
def findByIdAndDelete {α : Type} (p : α → Bool) :
    List α → Option α × List α
  | [] => (none, [])
  | x :: xs =>
    if p x then (some x, xs)
    else
      let r := findByIdAndDelete p xs
      (r.1, x :: r.2)

/-! ## ProjectStatus

The `ProjectStatusModel` schema file is not among the provided sources;
only the fields the repository actually queries (`_id`, `name`) are
modelled. -/

structure ProjectStatus where
  id : String
  name : String
deriving DecidableEq

/-- Query built by `getProjectStatuses`: `{}` plus, when `search` is
truthy (a non-empty string), `name: {$regex: search, $options: "i"}`. -/
def projectStatusQuery (search : String) (ps : ProjectStatus) : Bool :=
  if search == "" then true else regexMatchI search ps.name

/-- `ProjectStatusRepository.getProjectStatuses`. -/
def getProjectStatuses (store : List ProjectStatus) (pagination : IPagination)
    (search : String) : ListResult ProjectStatus × List LogEntry :=
  let q := store.filter (projectStatusQuery search)
  let projectStatuses := paginate q pagination.page pagination.limit
  let totalCount := q.length
  let totalPages := ceilDiv totalCount pagination.limit
  (⟨projectStatuses, totalCount, pagination.page, totalPages⟩, [])

/-- `ProjectStatusRepository.getProjectStatusById`: `findById`, throwing
"Project Status not found" (logged, then rethrown) when absent. -/
def getProjectStatusById (store : List ProjectStatus) (id : String) :
    Except String ProjectStatus × List LogEntry :=
  match store.find? (fun ps => ps.id == id) with
  | some ps => (Except.ok ps, [])
  | none =>
    (Except.error "Project Status not found",
     [("Project Status not found", "ProjectStatusRepository-getProjectStatusById")])

/-- `ProjectStatusRepository.deleteProjectStatus`: `findByIdAndDelete`,
throwing "Failed to delete project status" when nothing matched. -/
def deleteProjectStatus (store : List ProjectStatus) (id : String) :
    (Except String ProjectStatus × List ProjectStatus) × List LogEntry :=
  match findByIdAndDelete (fun ps => ps.id == id) store with
  | (some ps, newStore) => ((Except.ok ps, newStore), [])
  | (none, _) =>
    ((Except.error "Failed to delete project status", store),
     [("Failed to delete project status", "ProjectStatusRepository-deleteProjectStatus")])

/-- `IUpdateProjectStatus` is declared in an interface file absent from
the provided sources; only the `name` field (the one the repository's
queries use) is modelled, per the spec's data model of optional mutable
fields. -/
structure UpdateProjectStatus where
  name : Option String
deriving DecidableEq

/-- Partial-field application of an `IUpdateProjectStatus` payload. -/
def applyUpdateProjectStatus (data : UpdateProjectStatus)
    (ps : ProjectStatus) : ProjectStatus :=
  { ps with name := data.name.getD ps.name }

/-- `ProjectStatusRepository.updateProjectStatus`: `findByIdAndUpdate`
(filter on `_id` only, `{new:true}`), throwing "Failed to update
project status" when nothing matched; logged under
"ProjectStatusRepository-updateProjectStatus". -/
def updateProjectStatus (store : List ProjectStatus) (id : String)
    (data : UpdateProjectStatus) :
    (Except String ProjectStatus × List ProjectStatus) × List LogEntry :=
  match findOneAndUpdateBy (fun ps => ps.id == id)
      (applyUpdateProjectStatus data) store with
  | (some ps, newStore) => ((Except.ok ps, newStore), [])
  | (none, _) =>
    ((Except.error "Failed to update project status", store),
     [("Failed to update project status", "ProjectStatusRepository-updateProjectStatus")])

/-! ## ServiceCompany -/

structure ServiceCompany where
  id : String
  name : String
  address : String
  description : Option String
  mapField : Option String
  url : Option String
  isActive : Bool
  isDeleted : Bool
deriving DecidableEq

/-- `ICreateServiceCompany`. -/
structure CreateServiceCompany where
  name : String
  address : String
  description : Option String
  mapField : Option String
  url : Option String
deriving DecidableEq

/-- `IUpdateServiceCompany` (all fields optional). -/
structure UpdateServiceCompany where
  name : Option String
  address : Option String
  description : Option String
  mapField : Option String
  url : Option String
deriving DecidableEq

/-- Query built by `getServiceCompanies`: `{}` (no `isDeleted` filter)
plus the conditional case-insensitive `name` regex. -/
def serviceCompanyQuery (search : String) (sc : ServiceCompany) : Bool :=
  if search == "" then true else regexMatchI search sc.name

/-- `ServiceCompanyRepository.getServiceCompanies`. -/
def getServiceCompanies (store : List ServiceCompany) (pagination : IPagination)
    (search : String) : ListResult ServiceCompany × List LogEntry :=
  let q := store.filter (serviceCompanyQuery search)
  let serviceCompanies := paginate q pagination.page pagination.limit
  let totalCount := q.length
  let totalPages := ceilDiv totalCount pagination.limit
  (⟨serviceCompanies, totalCount, pagination.page, totalPages⟩, [])

/-- `ServiceCompanyRepository.getServiceCompanyById`. -/
def getServiceCompanyById (store : List ServiceCompany) (id : String) :
    Except String ServiceCompany × List LogEntry :=
  match store.find? (fun sc => sc.id == id) with
  | some sc => (Except.ok sc, [])
  | none =>
    (Except.error "ServiceCompany not found",
     [("ServiceCompany not found", "ServiceCompanyRepository-getServiceCompanyById")])

/-- `ServiceCompanyModel.create`: schema defaults `isActive: true`,
`isDeleted: false`; the new document receives a fresh id. -/
def createServiceCompany (store : List ServiceCompany) (newId : String)
    (data : CreateServiceCompany) :
    (ServiceCompany × List ServiceCompany) × List LogEntry :=
  let sc : ServiceCompany :=
    ⟨newId, data.name, data.address, data.description, data.mapField, data.url,
     true, false⟩
  ((sc, store ++ [sc]), [])

/-- Partial-field application of an `IUpdateServiceCompany` payload. -/
def applyUpdateServiceCompany (data : UpdateServiceCompany)
    (sc : ServiceCompany) : ServiceCompany :=
  { sc with
    name := data.name.getD sc.name
    address := data.address.getD sc.address
    description := if data.description.isSome then data.description else sc.description
    mapField := if data.mapField.isSome then data.mapField else sc.mapField
    url := if data.url.isSome then data.url else sc.url }

/-- `ServiceCompanyRepository.updateServiceCompany`: `findByIdAndUpdate`
(filter on `_id` only), throwing "Failed to update ServiceCompany". -/
def updateServiceCompany (store : List ServiceCompany) (id : String)
    (data : UpdateServiceCompany) :
    (Except String ServiceCompany × List ServiceCompany) × List LogEntry :=
  match findOneAndUpdateBy (fun sc => sc.id == id)
      (applyUpdateServiceCompany data) store with
  | (some sc, newStore) => ((Except.ok sc, newStore), [])
  | (none, _) =>
    ((Except.error "Failed to update ServiceCompany", store),
     [("Failed to update ServiceCompany", "ServiceCompanyRepository-updateServiceCompany")])

/-- `ServiceCompanyRepository.deleteServiceCompany`: `findByIdAndDelete`
(hard delete), throwing "Failed to delete ServiceCompany". -/
def deleteServiceCompany (store : List ServiceCompany) (id : String) :
    (Except String ServiceCompany × List ServiceCompany) × List LogEntry :=
  match findByIdAndDelete (fun sc => sc.id == id) store with
  | (some sc, newStore) => ((Except.ok sc, newStore), [])
  | (none, _) =>
    ((Except.error "Failed to delete ServiceCompany", store),
     [("Failed to delete ServiceCompany", "ServiceCompanyRepository-deleteServiceCompany")])

/-! ## Timesheet -/

structure Timesheet where
  id : String
  activity : String
  worker : String
  manager : String
  startTime : String
  endTime : String
  hoursSpent : Int
  date : String
  file : String
  isPending : Bool
  isRejected : Bool
  isAccepted : Bool
  isResubmitted : Bool
  rejectionReason : List String
deriving DecidableEq

/-- `ICreateTimesheet`; schema defaults `isPending: true` and the other
three flags `false`, `rejectionReason` defaults to the empty array. -/
structure CreateTimesheet where
  activity : String
  worker : String
  manager : String
  startTime : String
  endTime : String
  hoursSpent : Int
  date : String
  file : String
  isPending : Option Bool
  isRejected : Option Bool
  isAccepted : Option Bool
  isResubmitted : Option Bool
  rejectionReason : Option (List String)
deriving DecidableEq

/-- `IUpdateTimesheet` (all fields optional). -/
structure UpdateTimesheet where
  activity : Option String
  worker : Option String
  manager : Option String
  startTime : Option String
  endTime : Option String
  hoursSpent : Option Int
  date : Option String
  file : Option String
  isPending : Option Bool
  isRejected : Option Bool
  isAccepted : Option Bool
  isResubmitted : Option Bool
  rejectionReason : Option (List String)
deriving DecidableEq

/-- Query built by `getTimesheets`: `{}` plus the conditional
case-insensitive regex on `file`. -/
def timesheetQuery (search : String) (t : Timesheet) : Bool :=
  if search == "" then true else regexMatchI search t.file

/-- `TimesheetRepository.getTimesheets`. Note: the source never applies
`skip`/`limit` to the `find` query — the data returned is every
matching record — while `totalPages` and `currentPage` are still
computed from the pagination parameters. -/
def getTimesheets (store : List Timesheet) (pagination : IPagination)
    (search : String) : ListResult Timesheet × List LogEntry :=
  let q := store.filter (timesheetQuery search)
  let timesheets := q
  let totalCount := q.length
  let totalPages := ceilDiv totalCount pagination.limit
  (⟨timesheets, totalCount, pagination.page, totalPages⟩, [])

/-- `TimesheetRepository.getTimesheetById`. -/
def getTimesheetById (store : List Timesheet) (id : String) :
    Except String Timesheet × List LogEntry :=
  match store.find? (fun t => t.id == id) with
  | some t => (Except.ok t, [])
  | none =>
    (Except.error "Timesheet not found",
     [("Timesheet not found", "TimesheetRepository-getTimesheetById")])

/-- `TimesheetModel.create` with the schema defaults applied. -/
def createTimesheet (store : List Timesheet) (newId : String)
    (data : CreateTimesheet) : (Timesheet × List Timesheet) × List LogEntry :=
  let t : Timesheet :=
    ⟨newId, data.activity, data.worker, data.manager, data.startTime,
     data.endTime, data.hoursSpent, data.date, data.file,
     data.isPending.getD true, data.isRejected.getD false,
     data.isAccepted.getD false, data.isResubmitted.getD false,
     data.rejectionReason.getD []⟩
  ((t, store ++ [t]), [])

/-- Partial-field application of an `IUpdateTimesheet` payload. -/
def applyUpdateTimesheet (data : UpdateTimesheet) (t : Timesheet) : Timesheet :=
  { t with
    activity := data.activity.getD t.activity
    worker := data.worker.getD t.worker
    manager := data.manager.getD t.manager
    startTime := data.startTime.getD t.startTime
    endTime := data.endTime.getD t.endTime
    hoursSpent := data.hoursSpent.getD t.hoursSpent
    date := data.date.getD t.date
    file := data.file.getD t.file
    isPending := data.isPending.getD t.isPending
    isRejected := data.isRejected.getD t.isRejected
    isAccepted := data.isAccepted.getD t.isAccepted
    isResubmitted := data.isResubmitted.getD t.isResubmitted
    rejectionReason := data.rejectionReason.getD t.rejectionReason }

/-- `TimesheetRepository.updateTimesheet`: `findByIdAndUpdate` (filter
on `_id` only), throwing "Failed to update timesheet". -/
def updateTimesheet (store : List Timesheet) (id : String)
    (data : UpdateTimesheet) :
    (Except String Timesheet × List Timesheet) × List LogEntry :=
  match findOneAndUpdateBy (fun t => t.id == id)
      (applyUpdateTimesheet data) store with
  | (some t, newStore) => ((Except.ok t, newStore), [])
  | (none, _) =>
    ((Except.error "Failed to update timesheet", store),
     [("Failed to update timesheet", "TimesheetRepository-updateTimesheet")])

/-- `TimesheetRepository.deleteTimesheet`: `findByIdAndDelete` (hard
delete), throwing "Failed to delete timesheet". -/
def deleteTimesheet (store : List Timesheet) (id : String) :
    (Except String Timesheet × List Timesheet) × List LogEntry :=
  match findByIdAndDelete (fun t => t.id == id) store with
  | (some t, newStore) => ((Except.ok t, newStore), [])
  | (none, _) =>
    ((Except.error "Failed to delete timesheet", store),
     [("Failed to delete timesheet", "TimesheetRepository-deleteTimesheet")])

/-! ## Customer -/

structure Customer where
  id : String
  email : String
  isActive : Bool
  isDeleted : Bool
  name : String
  password : String
deriving DecidableEq

/-- `ICreateCustomer` (`isActive` / `isDeleted` optional; schema
defaults `true` / `false`). -/
structure CreateCustomer where
  email : String
  isActive : Option Bool
  isDeleted : Option Bool
  name : String
  password : String
deriving DecidableEq

/-- `IUpdateCustomer` (all fields optional). -/
structure UpdateCustomer where
  email : Option String
  isActive : Option Bool
  isDeleted : Option Bool
  name : Option String
  password : Option String
deriving DecidableEq

/-- Query built by `getCustomers`: `{isDeleted: false}` plus the
conditional case-insensitive regex on `name`. -/
def customerQuery (search : String) (c : Customer) : Bool :=
  !c.isDeleted && (if search == "" then true else regexMatchI search c.name)

/-- `CustomerRepository.getCustomers`. -/
def getCustomers (store : List Customer) (pagination : IPagination)
    (search : String) : ListResult Customer × List LogEntry :=
  let q := store.filter (customerQuery search)
  let customers := paginate q pagination.page pagination.limit
  let totalCount := q.length
  let totalPages := ceilDiv totalCount pagination.limit
  (⟨customers, totalCount, pagination.page, totalPages⟩, [])

/-- `CustomerRepository.getCustomerById`: `findOne({_id: id,
isDeleted: false})`, throwing "Customer not found" when absent. -/
def getCustomerById (store : List Customer) (id : String) :
    Except String Customer × List LogEntry :=
  match store.find? (fun c => c.id == id && !c.isDeleted) with
  | some c => (Except.ok c, [])
  | none =>
    (Except.error "Customer not found",
     [("Customer not found", "CustomerRepository-getCustomerById")])

/-- `CustomerModel.create` with the schema defaults applied. (The
unique index on `email` is enforced by the store, an external concern
not modelled here.) -/
def createCustomer (store : List Customer) (newId : String)
    (data : CreateCustomer) : (Customer × List Customer) × List LogEntry :=
  let c : Customer :=
    ⟨newId, data.email, data.isActive.getD true, data.isDeleted.getD false,
     data.name, data.password⟩
  ((c, store ++ [c]), [])

/-- Partial-field application of an `IUpdateCustomer` payload. -/
def applyUpdateCustomer (data : UpdateCustomer) (c : Customer) : Customer :=
  { c with
    email := data.email.getD c.email
    isActive := data.isActive.getD c.isActive
    isDeleted := data.isDeleted.getD c.isDeleted
    name := data.name.getD c.name
    password := data.password.getD c.password }

/-- `CustomerRepository.updateCustomer`: `findOneAndUpdate({_id: id,
isDeleted: false}, data, {new:true})`, throwing "Failed to update
customer" when nothing matched. -/
def updateCustomer (store : List Customer) (id : String)
    (data : UpdateCustomer) :
    (Except String Customer × List Customer) × List LogEntry :=
  match findOneAndUpdateBy (fun c => c.id == id && !c.isDeleted)
      (applyUpdateCustomer data) store with
  | (some c, newStore) => ((Except.ok c, newStore), [])
  | (none, _) =>
    ((Except.error "Failed to update customer", store),
     [("Failed to update customer", "CustomerRepository-updateCustomer")])

/-- `CustomerRepository.deleteCustomer`: soft delete via
`findOneAndUpdate({_id: id, isDeleted: false}, {isDeleted: true},
{new:true})`, throwing "Failed to delete customer" when nothing
matched. -/
def deleteCustomer (store : List Customer) (id : String) :
    (Except String Customer × List Customer) × List LogEntry :=
  match findOneAndUpdateBy (fun c => c.id == id && !c.isDeleted)
      (fun c => { c with isDeleted := true }) store with
  | (some c, newStore) => ((Except.ok c, newStore), [])
  | (none, _) =>
    ((Except.error "Failed to delete customer", store),
     [("Failed to delete customer", "CustomerRepository-deleteCustomer")])

/-! ## ActivityManager

The `ActivityManagerModel` schema and the `IManager` interfaces are not
among the provided sources; only the fields the repository queries or
populates (`_id`, `name`, `admin`, `isDeleted`) are modelled, following
the spec's data model (soft-delete flag, reference-by-identifier). -/

structure Manager where
  id : String
  name : String
  admin : String
  isDeleted : Bool
deriving DecidableEq

/-- Modelled from the spec: `IUpdateManager` is declared in an
interface file absent from the sources; per the spec's data model an
update payload is a partial set of the entity's mutable fields. -/
structure UpdateManager where
  name : Option String
  admin : Option String
  isDeleted : Option Bool
deriving DecidableEq

/-- Query built by `getActivityManagers`: `{isDeleted: false}` plus the
conditional case-insensitive regex on `name`. -/
def managerQuery (search : String) (m : Manager) : Bool :=
  !m.isDeleted && (if search == "" then true else regexMatchI search m.name)

/-- `ActivityManagerRepository.getActivityManagers`. -/
def getActivityManagers (store : List Manager) (pagination : IPagination)
    (search : String) : ListResult Manager × List LogEntry :=
  let q := store.filter (managerQuery search)
  let totalCount := q.length
  let totalPages := ceilDiv totalCount pagination.limit
  let currentPage := pagination.page
  let managers := paginate q pagination.page pagination.limit
  (⟨managers, totalCount, currentPage, totalPages⟩, [])

/-- `ActivityManagerRepository.getManagerById`: `findOne({_id: id,
isDeleted: false})`, throwing "Manager not found"; the catch block logs
under the label "ManagerRepository-getManagerById". -/
def getManagerById (store : List Manager) (id : String) :
    Except String Manager × List LogEntry :=
  match store.find? (fun m => m.id == id && !m.isDeleted) with
  | some m => (Except.ok m, [])
  | none =>
    (Except.error "Manager not found",
     [("Manager not found", "ManagerRepository-getManagerById")])

/-- Partial-field application of an `IUpdateManager` payload. -/
def applyUpdateManager (data : UpdateManager) (m : Manager) : Manager :=
  { m with
    name := data.name.getD m.name
    admin := data.admin.getD m.admin
    isDeleted := data.isDeleted.getD m.isDeleted }

/-- `ActivityManagerRepository.updateManager`: `findOneAndUpdate({_id:
id, isDeleted: false}, data, {new:true})`, throwing "Failed to update
manager"; logged under "ManagerRepository-updateManager". -/
def updateManager (store : List Manager) (id : String)
    (data : UpdateManager) :
    (Except String Manager × List Manager) × List LogEntry :=
  match findOneAndUpdateBy (fun m => m.id == id && !m.isDeleted)
      (applyUpdateManager data) store with
  | (some m, newStore) => ((Except.ok m, newStore), [])
  | (none, _) =>
    ((Except.error "Failed to update manager", store),
     [("Failed to update manager", "ManagerRepository-updateManager")])

/-- `ActivityManagerRepository.deleteManager`: soft delete via
`findOneAndUpdate({_id: id, isDeleted: false}, {isDeleted: true},
{new:true})`, throwing "Failed to delete manager"; logged under
"ManagerRepository-deleteManager". -/
def deleteManager (store : List Manager) (id : String) :
    (Except String Manager × List Manager) × List LogEntry :=
  match findOneAndUpdateBy (fun m => m.id == id && !m.isDeleted)
      (fun m => { m with isDeleted := true }) store with
  | (some m, newStore) => ((Except.ok m, newStore), [])
  | (none, _) =>
    ((Except.error "Failed to delete manager", store),
     [("Failed to delete manager", "ManagerRepository-deleteManager")])

/-! ## Middlewares

The ad-hoc middlewares destructure named fields from `req.body` and
test them with JavaScript truthiness. Body fields are modelled as
`Option String`: `none` for an absent field, `some s` for a present
string; a field is truthy exactly when it is present and non-empty. -/

/-- JavaScript truthiness of a possibly-absent string body field. -/
def truthyStr : Option String → Bool
  | some s => !(s == "")
  | none => false

/-- Outcome of a validation middleware: short-circuit the chain with
`res.sendError(error, message, status)`, or call `next()`. -/
inductive MwResult where
  | reject (message : String) (status : Nat)
  | next
deriving DecidableEq

/-- The fields `CustomerMiddleware.createCustomer` destructures. -/
structure CustomerCreateBody where
  email : Option String
  name : Option String
  password : Option String
deriving DecidableEq

/-- `CustomerMiddleware.createCustomer`. -/
def customerCreateMw (b : CustomerCreateBody) : MwResult :=
  if !truthyStr b.email || !truthyStr b.name || !truthyStr b.password then
    MwResult.reject "Email, Name, and Password must be provided" 400
  else MwResult.next

/-- `CustomerMiddleware.updateCustomer` (reads `email`, `name`,
`password` from the update body). -/
def customerUpdateMw (b : UpdateCustomer) : MwResult :=
  if !truthyStr b.email && !truthyStr b.name && !truthyStr b.password then
    MwResult.reject "At least one field (Email, Name, or Password) must be provided" 400
  else MwResult.next

/-- The fields `ServiceCompanyMiddleware.createServiceCompany`
destructures. -/
structure ServiceCompanyCreateBody where
  name : Option String
  address : Option String
deriving DecidableEq

/-- `ServiceCompanyMiddleware.createServiceCompany`. -/
def serviceCompanyCreateMw (b : ServiceCompanyCreateBody) : MwResult :=
  if !truthyStr b.name || !truthyStr b.address then
    MwResult.reject "Name and Address must be provided" 400
  else MwResult.next

/-- `ServiceCompanyMiddleware.updateServiceCompany` (reads `name` and
`address` from the update body). -/
def serviceCompanyUpdateMw (b : UpdateServiceCompany) : MwResult :=
  if !truthyStr b.name && !truthyStr b.address then
    MwResult.reject "At least one field (Name or Address) must be provided" 400
  else MwResult.next

/-- The fields `TimesheetMiddleware.createTimesheet` destructures. -/
structure TimesheetCreateBody where
  activity : Option String
  worker : Option String
  manager : Option String
  startTime : Option String
  endTime : Option String
  file : Option String
deriving DecidableEq

/-- `TimesheetMiddleware.createTimesheet`. -/
def timesheetCreateMw (b : TimesheetCreateBody) : MwResult :=
  if !truthyStr b.activity || !truthyStr b.worker || !truthyStr b.manager ||
      !truthyStr b.startTime || !truthyStr b.endTime || !truthyStr b.file then
    MwResult.reject
      "Activity, Worker, Manager, StartTime, EndTime, and File must be provided" 400
  else MwResult.next

/-- `TimesheetMiddleware.updateTimesheet` (reads `activity`, `worker`,
`manager`, `startTime`, `endTime`, `file` from the update body). -/
def timesheetUpdateMw (b : UpdateTimesheet) : MwResult :=
  if !truthyStr b.activity && !truthyStr b.worker && !truthyStr b.manager &&
      !truthyStr b.startTime && !truthyStr b.endTime && !truthyStr b.file then
    MwResult.reject
      "At least one of Activity, Worker, Manager, StartTime, EndTime, or File must be provided"
      400
  else MwResult.next

/-! ## Services and route composition

Modelled from the spec: the response helpers `sendFormatted` /
`sendArrayFormatted` / `sendError` are external collaborators whose
source is not under the provided files; per the spec they send a
success envelope with the given HTTP status, the status defaulting to
200 when the service passes none, and error envelopes with no distinct
status at this layer. The outcome type below records the message and
status the service passes to them. -/

/-- Outcome of a request after middleware and service: a middleware
rejection (`sendError` with an explicit status), a service success
envelope (`sendFormatted`/`sendArrayFormatted` with its status), or a
service failure envelope (`sendError` with no status). -/
inductive RouteResult (α : Type) where
  | mwReject (message : String) (status : Nat)
  | svcOk (data : α) (message : String) (status : Nat)
  | svcErr (message : String)
deriving DecidableEq

/-- `CustomerService.getCustomers`: list success goes through
`sendArrayFormatted` (default status 200). -/
def getCustomersService (store : List Customer) (pagination : IPagination)
    (search : String) : RouteResult (ListResult Customer) :=
  RouteResult.svcOk (getCustomers store pagination search).1
    "Customers retrieved successfully" 200

/-- `CustomerService.getCustomer`: success through `sendFormatted`
(default status 200), any thrown error through `sendError`. -/
def getCustomerService (store : List Customer) (id : String) :
    RouteResult Customer :=
  match (getCustomerById store id).1 with
  | Except.ok c => RouteResult.svcOk c "Customer retrieved successfully" 200
  | Except.error _ => RouteResult.svcErr "Customer retrieval failed"

/-- `CustomerService.createCustomer`: success through
`sendFormatted(..., 201)`. -/
def createCustomerService (store : List Customer) (newId : String)
    (data : CreateCustomer) : RouteResult Customer × List Customer :=
  let r := createCustomer store newId data
  (RouteResult.svcOk r.1.1 "Customer created successfully" 201, r.1.2)

/-- `CustomerService.updateCustomer`: success through `sendFormatted`
(default status 200). -/
def updateCustomerService (store : List Customer) (id : String)
    (data : UpdateCustomer) : RouteResult Customer × List Customer :=
  match (updateCustomer store id data).1 with
  | (Except.ok c, newStore) =>
    (RouteResult.svcOk c "Customer updated successfully" 200, newStore)
  | (Except.error _, newStore) =>
    (RouteResult.svcErr "Customer update failed", newStore)

/-- `CustomerService.deleteCustomer`: success through `sendFormatted`
(default status 200). -/
def deleteCustomerService (store : List Customer) (id : String) :
    RouteResult Customer × List Customer :=
  match (deleteCustomer store id).1 with
  | (Except.ok c, newStore) =>
    (RouteResult.svcOk c "Customer deleted successfully" 200, newStore)
  | (Except.error _, newStore) =>
    (RouteResult.svcErr "Customer deletion failed", newStore)

/-- `ServiceCompanyService.createServiceCompany`: success through
`sendFormatted(..., 201)`. -/
def createServiceCompanyService (store : List ServiceCompany)
    (newId : String) (data : CreateServiceCompany) :
    RouteResult ServiceCompany × List ServiceCompany :=
  let r := createServiceCompany store newId data
  (RouteResult.svcOk r.1.1 "ServiceCompany created successfully" 201, r.1.2)

/-- `ServiceCompanyService.updateServiceCompany`: success through
`sendFormatted` (default status 200). -/
def updateServiceCompanyService (store : List ServiceCompany) (id : String)
    (data : UpdateServiceCompany) :
    RouteResult ServiceCompany × List ServiceCompany :=
  match (updateServiceCompany store id data).1 with
  | (Except.ok sc, newStore) =>
    (RouteResult.svcOk sc "ServiceCompany updated successfully" 200, newStore)
  | (Except.error _, newStore) =>
    (RouteResult.svcErr "ServiceCompany update failed", newStore)

/-- `ServiceCompanyService.getServiceCompanies`: list success goes
through `sendArrayFormatted` (default status 200). -/
def getServiceCompaniesService (store : List ServiceCompany)
    (pagination : IPagination) (search : String) :
    RouteResult (ListResult ServiceCompany) :=
  RouteResult.svcOk (getServiceCompanies store pagination search).1
    "ServiceCompanies retrieved successfully" 200

/-- `ServiceCompanyService.getServiceCompany`: success through
`sendFormatted` (default status 200). -/
def getServiceCompanyService (store : List ServiceCompany) (id : String) :
    RouteResult ServiceCompany :=
  match (getServiceCompanyById store id).1 with
  | Except.ok sc =>
    RouteResult.svcOk sc "ServiceCompany retrieved successfully" 200
  | Except.error _ => RouteResult.svcErr "ServiceCompany retrieval failed"

/-- `ServiceCompanyService.deleteServiceCompany`: success through
`sendFormatted` (default status 200). -/
def deleteServiceCompanyService (store : List ServiceCompany) (id : String) :
    RouteResult ServiceCompany × List ServiceCompany :=
  match (deleteServiceCompany store id).1 with
  | (Except.ok sc, newStore) =>
    (RouteResult.svcOk sc "ServiceCompany deleted successfully" 200, newStore)
  | (Except.error _, newStore) =>
    (RouteResult.svcErr "ServiceCompany deletion failed", newStore)

/-- `TimesheetService.getTimesheets`: list success goes through
`sendArrayFormatted` (default status 200). -/
def getTimesheetsService (store : List Timesheet) (pagination : IPagination)
    (search : String) : RouteResult (ListResult Timesheet) :=
  RouteResult.svcOk (getTimesheets store pagination search).1
    "Timesheets retrieved successfully" 200

/-- `TimesheetService.getTimesheet`: success through `sendFormatted`
(default status 200). -/
def getTimesheetService (store : List Timesheet) (id : String) :
    RouteResult Timesheet :=
  match (getTimesheetById store id).1 with
  | Except.ok t => RouteResult.svcOk t "Timesheet retrieved successfully" 200
  | Except.error _ => RouteResult.svcErr "Timesheet retrieval failed"

/-- `TimesheetService.deleteTimesheet`: success through `sendFormatted`
(default status 200). -/
def deleteTimesheetService (store : List Timesheet) (id : String) :
    RouteResult Timesheet × List Timesheet :=
  match (deleteTimesheet store id).1 with
  | (Except.ok t, newStore) =>
    (RouteResult.svcOk t "Timesheet deleted successfully" 200, newStore)
  | (Except.error _, newStore) =>
    (RouteResult.svcErr "Timesheet deletion failed", newStore)

/-- `TimesheetService.createTimesheet`: success through
`sendFormatted(..., 201)`. -/
def createTimesheetService (store : List Timesheet) (newId : String)
    (data : CreateTimesheet) : RouteResult Timesheet × List Timesheet :=
  let r := createTimesheet store newId data
  (RouteResult.svcOk r.1.1 "Timesheet created successfully" 201, r.1.2)

/-- `TimesheetService.updateTimesheet`: success through `sendFormatted`
(default status 200). -/
def updateTimesheetService (store : List Timesheet) (id : String)
    (data : UpdateTimesheet) : RouteResult Timesheet × List Timesheet :=
  match (updateTimesheet store id data).1 with
  | (Except.ok t, newStore) =>
    (RouteResult.svcOk t "Timesheet updated successfully" 200, newStore)
  | (Except.error _, newStore) =>
    (RouteResult.svcErr "Timesheet update failed", newStore)

/-- The `PATCH /:id` customer route chain: `updateCustomer` middleware,
then `CustomerService.updateCustomer`; a middleware rejection
short-circuits before the service (and hence before the repository)
runs. -/
def customerPatchRoute (store : List Customer) (id : String)
    (body : UpdateCustomer) : RouteResult Customer × List Customer :=
  match customerUpdateMw body with
  | MwResult.reject msg status => (RouteResult.mwReject msg status, store)
  | MwResult.next => updateCustomerService store id body

/-- The `PATCH /:id` service-company route chain. -/
def serviceCompanyPatchRoute (store : List ServiceCompany) (id : String)
    (body : UpdateServiceCompany) :
    RouteResult ServiceCompany × List ServiceCompany :=
  match serviceCompanyUpdateMw body with
  | MwResult.reject msg status => (RouteResult.mwReject msg status, store)
  | MwResult.next => updateServiceCompanyService store id body

/-- The `PATCH /:id` timesheet route chain. -/
def timesheetPatchRoute (store : List Timesheet) (id : String)
    (body : UpdateTimesheet) : RouteResult Timesheet × List Timesheet :=
  match timesheetUpdateMw body with
  | MwResult.reject msg status => (RouteResult.mwReject msg status, store)
  | MwResult.next => updateTimesheetService store id body

/-! ## Concrete sample records (used by witnesses and counterexamples) -/

def cW : Customer := ⟨"c1", "a@b.com", true, false, "A", "x"⟩

def cWdel : Customer := ⟨"c2", "d@b.com", true, true, "D", "y"⟩

def mW : Manager := ⟨"m1", "Mario", "adm1", false⟩

def mWdel : Manager := ⟨"m2", "Gone", "adm1", true⟩

def psW : ProjectStatus := ⟨"p1", "Open"⟩

def scW : ServiceCompany := ⟨"s1", "Acme Corp", "1 Road", none, none, none, true, false⟩

def tsW : Timesheet :=
  ⟨"t1", "a1", "w1", "mg1", "08:00", "16:00", 8, "2024-01-01", "scan1.png",
   true, false, false, false, []⟩

def tsW2 : Timesheet :=
  ⟨"t2", "a1", "w2", "mg1", "08:00", "16:00", 8, "2024-01-02", "scan2.png",
   true, false, false, false, []⟩

def emptyUpdateCustomer : UpdateCustomer := ⟨none, none, none, none, none⟩

def emptyUpdateServiceCompany : UpdateServiceCompany := ⟨none, none, none, none, none⟩

def emptyUpdateTimesheet : UpdateTimesheet :=
  ⟨none, none, none, none, none, none, none, none, none, none, none, none, none⟩

def resurrectPayload : UpdateCustomer := ⟨none, none, some false, none, none⟩

/-! ## Helper lemmas -/

theorem find?_split {α : Type} {p : α → Bool} {l : List α} {x : α}
    (h : l.find? p = some x) :
    p x = true ∧ ∃ l₁ l₂, l = l₁ ++ x :: l₂ ∧ ∀ y ∈ l₁, p y = false := by
  induction l with
  | nil => simp at h
  | cons a t ih =>
    cases hpa : p a with
    | true =>
      rw [List.find?_cons, hpa] at h
      simp only [Option.some.injEq] at h
      subst h
      exact ⟨hpa, [], t, rfl, by simp⟩
    | false =>
      rw [List.find?_cons, hpa] at h
      obtain ⟨hx, l₁, l₂, rfl, hl₁⟩ := ih h
      refine ⟨hx, a :: l₁, l₂, rfl, ?_⟩
      intro y hy
      rcases List.mem_cons.mp hy with rfl | hy
      · exact hpa
      · exact hl₁ y hy

theorem findOneAndUpdateBy_append {α : Type} (p : α → Bool) (f : α → α)
    (l₁ : List α) (x : α) (l₂ : List α)
    (h1 : ∀ y ∈ l₁, p y = false) (hx : p x = true) :
    findOneAndUpdateBy p f (l₁ ++ x :: l₂) = (some (f x), l₁ ++ f x :: l₂) := by
  induction l₁ with
  | nil => simp [findOneAndUpdateBy, hx]
  | cons a t ih =>
    have hpa : p a = false := h1 a (by simp)
    have ht : ∀ y ∈ t, p y = false := fun y hy => h1 y (by simp [hy])
    simp [findOneAndUpdateBy, hpa, ih ht]

theorem findOneAndUpdateBy_of_none {α : Type} (p : α → Bool) (f : α → α) :
    ∀ l : List α, (∀ x ∈ l, p x = false) → findOneAndUpdateBy p f l = (none, l)
  | [], _ => by simp [findOneAndUpdateBy]
  | a :: t, h => by
    have hpa : p a = false := h a (by simp)
    have ht : ∀ x ∈ t, p x = false := fun x hx => h x (by simp [hx])
    simp [findOneAndUpdateBy, hpa, findOneAndUpdateBy_of_none p f t ht]

theorem findOneAndUpdateBy_map {α β : Type} (p : α → Bool) (f : α → α)
    (g : α → β) (hg : ∀ x, g (f x) = g x) :
    ∀ l : List α, ((findOneAndUpdateBy p f l).2).map g = l.map g
  | [] => by simp [findOneAndUpdateBy]
  | a :: t => by
    cases hpa : p a with
    | true => simp [findOneAndUpdateBy, hpa, hg]
    | false => simp [findOneAndUpdateBy, hpa, findOneAndUpdateBy_map p f g hg t]

theorem findByIdAndDelete_append {α : Type} (p : α → Bool)
    (l₁ : List α) (x : α) (l₂ : List α)
    (h1 : ∀ y ∈ l₁, p y = false) (hx : p x = true) :
    findByIdAndDelete p (l₁ ++ x :: l₂) = (some x, l₁ ++ l₂) := by
  induction l₁ with
  | nil => simp [findByIdAndDelete, hx]
  | cons a t ih =>
    have hpa : p a = false := h1 a (by simp)
    have ht : ∀ y ∈ t, p y = false := fun y hy => h1 y (by simp [hy])
    simp [findByIdAndDelete, hpa, ih ht]

theorem ceilDiv_le_aux (N L t m : Nat) (h1 : t + m = N + L - 1) (h2 : m < L) :
    N ≤ t := by omega

theorem le_ceilDiv_mul (N L : Nat) (hL : 0 < L) : N ≤ ceilDiv N L * L := by
  have h1 : L * ((N + L - 1) / L) + (N + L - 1) % L = N + L - 1 :=
    Nat.div_add_mod _ _
  have h2 : (N + L - 1) % L < L := Nat.mod_lt _ hL
  have h3 : N ≤ L * ((N + L - 1) / L) := ceilDiv_le_aux N L _ _ h1 h2
  calc N ≤ L * ((N + L - 1) / L) := h3
    _ = ceilDiv N L * L := by rw [ceilDiv, Nat.mul_comm]

theorem ceilDiv_mul_lt (N L : Nat) (hL : 0 < L) : ceilDiv N L * L < N + L := by
  have h1 : (N + L - 1) / L * L ≤ N + L - 1 := Nat.div_mul_le_self _ _
  rw [ceilDiv]
  exact lt_of_le_of_lt h1 (by omega)

theorem paginate_length_le {α : Type} (l : List α) (page limit : Nat) :
    (paginate l page limit).length ≤ limit := by
  rw [paginate, List.length_take]
  exact min_le_left _ _

theorem paginate_getElem {α : Type} (l : List α) (page limit i : Nat)
    (h : i < limit) :
    (paginate l page limit)[i]? = l[(page - 1) * limit + i]? := by
  rw [paginate, List.getElem?_take, if_pos h, List.getElem?_drop]

theorem paginate_eq_nil {α : Type} (l : List α) (page limit : Nat)
    (hL : 0 < limit) (h : ceilDiv l.length limit < page) :
    paginate l page limit = [] := by
  have h1 : l.length ≤ ceilDiv l.length limit * limit := le_ceilDiv_mul _ _ hL
  have h2 : ceilDiv l.length limit * limit ≤ (page - 1) * limit :=
    Nat.mul_le_mul_right _ (by omega)
  rw [paginate, List.drop_eq_nil_of_le (le_trans h1 h2), List.take_nil]

theorem paginate_all {α : Type} (l : List α) (limit : Nat)
    (h : l.length ≤ limit) : paginate l 1 limit = l := by
  simp [paginate, List.take_of_length_le h]

theorem soft_delete_generic {α : Type} (fid : α → String) (fdel : α → Bool)
    (fset : α → α) (hdel : ∀ x, fdel (fset x) = true)
    (store : List α) (id : String) (c : α)
    (hnd : (store.map fid).Nodup)
    (hfind : store.find? (fun y => fid y == id && !fdel y) = some c) :
    ∃ l₁ l₂, store = l₁ ++ c :: l₂ ∧
      findOneAndUpdateBy (fun y => fid y == id && !fdel y) fset store =
        (some (fset c), l₁ ++ fset c :: l₂) ∧
      (l₁ ++ fset c :: l₂).find? (fun y => fid y == id && !fdel y) = none := by
  obtain ⟨hc, l₁, l₂, rfl, hl₁⟩ := find?_split hfind
  have hcid : fid c = id := by
    simp only [Bool.and_eq_true, beq_iff_eq] at hc
    exact hc.1
  have hnotmem : fid c ∉ l₂.map fid := by
    rw [List.map_append, List.map_cons] at hnd
    exact (List.nodup_cons.mp (List.nodup_append.mp hnd).2.1).1
  refine ⟨l₁, l₂, rfl, findOneAndUpdateBy_append _ _ _ _ _ hl₁ hc, ?_⟩
  apply List.find?_eq_none.mpr
  intro y hy
  rcases List.mem_append.mp hy with hy | hy
  · simp [hl₁ y hy]
  · rcases List.mem_cons.mp hy with rfl | hy
    · simp [hdel]
    · have hne : fid y ≠ id := by
        intro he
        apply hnotmem
        rw [hcid, ← he]
        exact List.mem_map_of_mem fid hy
      simp [hne]

theorem hard_delete_generic {α : Type} (fid : α → String)
    (store : List α) (id : String) (x : α)
    (hnd : (store.map fid).Nodup)
    (hfind : store.find? (fun y => fid y == id) = some x) :
    ∃ l₁ l₂, store = l₁ ++ x :: l₂ ∧
      findByIdAndDelete (fun y => fid y == id) store = (some x, l₁ ++ l₂) ∧
      (l₁ ++ l₂).find? (fun y => fid y == id) = none := by
  obtain ⟨hx, l₁, l₂, rfl, hl₁⟩ := find?_split hfind
  have hxid : fid x = id := by
    simpa only [beq_iff_eq] using hx
  have hnotmem₁ : fid x ∉ l₁.map fid := by
    intro hmem
    rcases List.mem_map.mp hmem with ⟨y, hy, hee⟩
    have hfalse := hl₁ y hy
    rw [hee, hxid] at hfalse
    simp at hfalse
  have hnotmem₂ : fid x ∉ l₂.map fid := by
    rw [List.map_append, List.map_cons] at hnd
    exact (List.nodup_cons.mp (List.nodup_append.mp hnd).2.1).1
  refine ⟨l₁, l₂, rfl, findByIdAndDelete_append _ _ _ _ hl₁ hx, ?_⟩
  apply List.find?_eq_none.mpr
  intro y hy
  rcases List.mem_append.mp hy with hy | hy
  · simp [hl₁ y hy]
  · have hne : fid y ≠ id := by
      intro he
      apply hnotmem₂
      rw [hxid, ← he]
      exact List.mem_map_of_mem fid hy
    simp [hne]

/-! ## Claim theorems -/

/-- Claim C1: for the soft-delete entities Customer and ActivityManager,
for every id resolving to a live record, the repository delete followed
by getById with the same id yields the NotFound error, while the record
still physically exists in the store — the store after deletion is the
same list with only that record's `isDeleted` flag set to `true`. -/
theorem C1_soft_delete_then_get_yields_not_found :
    (∀ (store : List Customer) (id : String) (c : Customer),
      (store.map Customer.id).Nodup →
      (getCustomerById store id).1 = Except.ok c →
      ∃ l₁ l₂, store = l₁ ++ c :: l₂ ∧
        (deleteCustomer store id).1 =
          (Except.ok { c with isDeleted := true },
           l₁ ++ { c with isDeleted := true } :: l₂) ∧
        (getCustomerById (l₁ ++ { c with isDeleted := true } :: l₂) id).1 =
          Except.error "Customer not found")
    ∧
    (∀ (store : List Manager) (id : String) (m : Manager),
      (store.map Manager.id).Nodup →
      (getManagerById store id).1 = Except.ok m →
      ∃ l₁ l₂, store = l₁ ++ m :: l₂ ∧
        (deleteManager store id).1 =
          (Except.ok { m with isDeleted := true },
           l₁ ++ { m with isDeleted := true } :: l₂) ∧
        (getManagerById (l₁ ++ { m with isDeleted := true } :: l₂) id).1 =
          Except.error "Manager not found") := by
  constructor
  · intro store id c hnd h
    have hfind : store.find? (fun y => y.id == id && !y.isDeleted) = some c := by
      cases hf : store.find? (fun y => y.id == id && !y.isDeleted) with
      | some x =>
        simp only [getCustomerById, hf] at h
        simp only [Except.ok.injEq] at h
        rw [h]
      | none => simp [getCustomerById, hf] at h
    obtain ⟨l₁, l₂, hsplit, hupd, hnone⟩ :=
      soft_delete_generic Customer.id Customer.isDeleted
        (fun y => { y with isDeleted := true }) (fun _ => rfl)
        store id c hnd hfind
    refine ⟨l₁, l₂, hsplit, ?_, ?_⟩
    · simp [deleteCustomer, hupd]
    · simp [getCustomerById, hnone]
  · intro store id m hnd h
    have hfind : store.find? (fun y => y.id == id && !y.isDeleted) = some m := by
      cases hf : store.find? (fun y => y.id == id && !y.isDeleted) with
      | some x =>
        simp only [getManagerById, hf] at h
        simp only [Except.ok.injEq] at h
        rw [h]
      | none => simp [getManagerById, hf] at h
    obtain ⟨l₁, l₂, hsplit, hupd, hnone⟩ :=
      soft_delete_generic Manager.id Manager.isDeleted
        (fun y => { y with isDeleted := true }) (fun _ => rfl)
        store id m hnd hfind
    refine ⟨l₁, l₂, hsplit, ?_, ?_⟩
    · simp [deleteManager, hupd]
    · simp [getManagerById, hnone]

/-- Witness for C1 at a concrete one-customer store. -/
theorem C1_witness :
    ∃ l₁ l₂, [cW] = l₁ ++ cW :: l₂ ∧
      (deleteCustomer [cW] "c1").1 =
        (Except.ok { cW with isDeleted := true },
         l₁ ++ { cW with isDeleted := true } :: l₂) ∧
      (getCustomerById (l₁ ++ { cW with isDeleted := true } :: l₂) "c1").1 =
        Except.error "Customer not found" :=
  C1_soft_delete_then_get_yields_not_found.1 [cW] "c1" cW (by decide) rfl

/-- Claim C9: once a Customer or Manager record is soft-deleted, the
repository update and delete operations (whose filters require
`isDeleted: false`) fail with an error and leave the store unchanged,
for every update payload — including one that sets `isDeleted` to
`false`. -/
theorem C9_soft_deleted_records_are_frozen :
    (∀ (store : List Customer) (id : String) (data : UpdateCustomer),
      (∀ c ∈ store, c.id = id → c.isDeleted = true) →
      (updateCustomer store id data).1 =
        (Except.error "Failed to update customer", store))
    ∧
    (∀ (store : List Customer) (id : String),
      (∀ c ∈ store, c.id = id → c.isDeleted = true) →
      (deleteCustomer store id).1 =
        (Except.error "Failed to delete customer", store))
    ∧
    (∀ (store : List Manager) (id : String) (data : UpdateManager),
      (∀ m ∈ store, m.id = id → m.isDeleted = true) →
      (updateManager store id data).1 =
        (Except.error "Failed to update manager", store))
    ∧
    (∀ (store : List Manager) (id : String),
      (∀ m ∈ store, m.id = id → m.isDeleted = true) →
      (deleteManager store id).1 =
        (Except.error "Failed to delete manager", store)) := by
  have hcu : ∀ (store : List Customer) (id : String),
      (∀ c ∈ store, c.id = id → c.isDeleted = true) →
      ∀ c ∈ store, (c.id == id && !c.isDeleted) = false := by
    intro store id h c hc
    by_cases he : c.id = id
    · simp [he, h c hc he]
    · simp [he]
  have hmu : ∀ (store : List Manager) (id : String),
      (∀ m ∈ store, m.id = id → m.isDeleted = true) →
      ∀ m ∈ store, (m.id == id && !m.isDeleted) = false := by
    intro store id h m hm
    by_cases he : m.id = id
    · simp [he, h m hm he]
    · simp [he]
  refine ⟨?_, ?_, ?_, ?_⟩
  · intro store id data h
    have hn := findOneAndUpdateBy_of_none
      (fun c => c.id == id && !c.isDeleted) (applyUpdateCustomer data)
      store (hcu store id h)
    simp [updateCustomer, hn]
  · intro store id h
    have hn := findOneAndUpdateBy_of_none
      (fun c => c.id == id && !c.isDeleted) (fun c => { c with isDeleted := true })
      store (hcu store id h)
    simp [deleteCustomer, hn]
  · intro store id data h
    have hn := findOneAndUpdateBy_of_none
      (fun m => m.id == id && !m.isDeleted) (applyUpdateManager data)
      store (hmu store id h)
    simp [updateManager, hn]
  · intro store id h
    have hn := findOneAndUpdateBy_of_none
      (fun m => m.id == id && !m.isDeleted) (fun m => { m with isDeleted := true })
      store (hmu store id h)
    simp [deleteManager, hn]

/-- Witness for C9: an update payload that tries to set `isDeleted`
back to `false` on an already soft-deleted customer still fails and
leaves the store unchanged. -/
theorem C9_witness :
    (updateCustomer [cWdel] "c2" resurrectPayload).1 =
      (Except.error "Failed to update customer", [cWdel]) :=
  C9_soft_deleted_records_are_frozen.1 [cWdel] "c2" resurrectPayload (by decide)

/-- Claim C7: the hard-delete entities ProjectStatus, ServiceCompany
and Timesheet physically remove the record (the store shrinks by that
record and a subsequent getById fails), whereas Customer and Manager
deletes never remove a record — the stored ids are preserved exactly. -/
theorem C7_hard_delete_removes_soft_delete_keeps :
    (∀ (store : List ProjectStatus) (id : String) (ps : ProjectStatus),
      (store.map ProjectStatus.id).Nodup →
      (getProjectStatusById store id).1 = Except.ok ps →
      ∃ l₁ l₂, store = l₁ ++ ps :: l₂ ∧
        (deleteProjectStatus store id).1 = (Except.ok ps, l₁ ++ l₂) ∧
        (getProjectStatusById (l₁ ++ l₂) id).1 =
          Except.error "Project Status not found")
    ∧
    (∀ (store : List ServiceCompany) (id : String) (sc : ServiceCompany),
      (store.map ServiceCompany.id).Nodup →
      (getServiceCompanyById store id).1 = Except.ok sc →
      ∃ l₁ l₂, store = l₁ ++ sc :: l₂ ∧
        (deleteServiceCompany store id).1 = (Except.ok sc, l₁ ++ l₂) ∧
        (getServiceCompanyById (l₁ ++ l₂) id).1 =
          Except.error "ServiceCompany not found")
    ∧
    (∀ (store : List Timesheet) (id : String) (t : Timesheet),
      (store.map Timesheet.id).Nodup →
      (getTimesheetById store id).1 = Except.ok t →
      ∃ l₁ l₂, store = l₁ ++ t :: l₂ ∧
        (deleteTimesheet store id).1 = (Except.ok t, l₁ ++ l₂) ∧
        (getTimesheetById (l₁ ++ l₂) id).1 =
          Except.error "Timesheet not found")
    ∧
    (∀ (store : List Customer) (id : String),
      ((deleteCustomer store id).1.2).map Customer.id = store.map Customer.id)
    ∧
    (∀ (store : List Manager) (id : String),
      ((deleteManager store id).1.2).map Manager.id = store.map Manager.id) := by
  refine ⟨?_, ?_, ?_, ?_, ?_⟩
  · intro store id ps hnd h
    have hfind : store.find? (fun y => y.id == id) = some ps := by
      cases hf : store.find? (fun y => y.id == id) with
      | some x =>
        simp only [getProjectStatusById, hf] at h
        simp only [Except.ok.injEq] at h
        rw [h]
      | none => simp [getProjectStatusById, hf] at h
    obtain ⟨l₁, l₂, hsplit, hdel, hnone⟩ :=
      hard_delete_generic ProjectStatus.id store id ps hnd hfind
    refine ⟨l₁, l₂, hsplit, ?_, ?_⟩
    · simp [deleteProjectStatus, hdel]
    · simp [getProjectStatusById, hnone]
  · intro store id sc hnd h
    have hfind : store.find? (fun y => y.id == id) = some sc := by
      cases hf : store.find? (fun y => y.id == id) with
      | some x =>
        simp only [getServiceCompanyById, hf] at h
        simp only [Except.ok.injEq] at h
        rw [h]
      | none => simp [getServiceCompanyById, hf] at h
    obtain ⟨l₁, l₂, hsplit, hdel, hnone⟩ :=
      hard_delete_generic ServiceCompany.id store id sc hnd hfind
    refine ⟨l₁, l₂, hsplit, ?_, ?_⟩
    · simp [deleteServiceCompany, hdel]
    · simp [getServiceCompanyById, hnone]
  · intro store id t hnd h
    have hfind : store.find? (fun y => y.id == id) = some t := by
      cases hf : store.find? (fun y => y.id == id) with
      | some x =>
        simp only [getTimesheetById, hf] at h
        simp only [Except.ok.injEq] at h
        rw [h]
      | none => simp [getTimesheetById, hf] at h
    obtain ⟨l₁, l₂, hsplit, hdel, hnone⟩ :=
      hard_delete_generic Timesheet.id store id t hnd hfind
    refine ⟨l₁, l₂, hsplit, ?_, ?_⟩
    · simp [deleteTimesheet, hdel]
    · simp [getTimesheetById, hnone]
  · intro store id
    have hmap := findOneAndUpdateBy_map
      (fun c => c.id == id && !c.isDeleted)
      (fun c => { c with isDeleted := true }) Customer.id (fun _ => rfl) store
    rcases hf : findOneAndUpdateBy (fun c => c.id == id && !c.isDeleted)
        (fun c => { c with isDeleted := true }) store with ⟨o, s2⟩
    rw [hf] at hmap
    cases o with
    | some c => simp [deleteCustomer, hf]; exact hmap
    | none => simp [deleteCustomer, hf]
  · intro store id
    have hmap := findOneAndUpdateBy_map
      (fun m => m.id == id && !m.isDeleted)
      (fun m => { m with isDeleted := true }) Manager.id (fun _ => rfl) store
    rcases hf : findOneAndUpdateBy (fun m => m.id == id && !m.isDeleted)
        (fun m => { m with isDeleted := true }) store with ⟨o, s2⟩
    rw [hf] at hmap
    cases o with
    | some m => simp [deleteManager, hf]; exact hmap
    | none => simp [deleteManager, hf]

/-- Witness for C7 at a concrete one-record ProjectStatus store. -/
theorem C7_witness :
    ∃ l₁ l₂, [psW] = l₁ ++ psW :: l₂ ∧
      (deleteProjectStatus [psW] "p1").1 = (Except.ok psW, l₁ ++ l₂) ∧
      (getProjectStatusById (l₁ ++ l₂) "p1").1 =
        Except.error "Project Status not found" :=
  C7_hard_delete_removes_soft_delete_keeps.1 [psW] "p1" psW (by decide) rfl

/-- Counterexample to claim C2 as stated: `getTimesheets` never applies
skip/limit, so with one stored timesheet, limit 1 and page 2
(page exceeds totalPages = 1) the returned data is not empty. -/
theorem C2_counterexample :
    ((getTimesheets [tsW] ⟨2, 1⟩ "").1).totalPages < 2 ∧
    ((getTimesheets [tsW] ⟨2, 1⟩ "").1).totalCount = 1 ∧
    ((getTimesheets [tsW] ⟨2, 1⟩ "").1).data ≠ [] := by decide

/-- Claim C2 amended: for every list operation except Timesheet's
(ProjectStatus, ServiceCompany, Customer, ActivityManager), a positive
limit and a page beyond totalPages yield an empty data array with no
error; Timesheet's list instead always returns every matching record. -/
theorem C2_page_beyond_totalPages_empty :
    (∀ (store : List ProjectStatus) (pg : IPagination) (search : String),
      0 < pg.limit →
      ((getProjectStatuses store pg search).1).totalPages < pg.page →
      ((getProjectStatuses store pg search).1).data = [])
    ∧
    (∀ (store : List ServiceCompany) (pg : IPagination) (search : String),
      0 < pg.limit →
      ((getServiceCompanies store pg search).1).totalPages < pg.page →
      ((getServiceCompanies store pg search).1).data = [])
    ∧
    (∀ (store : List Customer) (pg : IPagination) (search : String),
      0 < pg.limit →
      ((getCustomers store pg search).1).totalPages < pg.page →
      ((getCustomers store pg search).1).data = [])
    ∧
    (∀ (store : List Manager) (pg : IPagination) (search : String),
      0 < pg.limit →
      ((getActivityManagers store pg search).1).totalPages < pg.page →
      ((getActivityManagers store pg search).1).data = [])
    ∧
    (∀ (store : List Timesheet) (pg : IPagination) (search : String),
      ((getTimesheets store pg search).1).data =
        store.filter (timesheetQuery search)) := by
  refine ⟨?_, ?_, ?_, ?_, ?_⟩
  · intro store pg search hL h
    exact paginate_eq_nil _ _ _ hL h
  · intro store pg search hL h
    exact paginate_eq_nil _ _ _ hL h
  · intro store pg search hL h
    exact paginate_eq_nil _ _ _ hL h
  · intro store pg search hL h
    exact paginate_eq_nil _ _ _ hL h
  · intro store pg search
    rfl

/-- Witness for C2 (amended) at a concrete store: one customer, limit
1, page 2 is beyond totalPages = 1 and the data comes back empty. -/
theorem C2_witness :
    ((getCustomers [cW] ⟨2, 1⟩ "").1).data = [] :=
  C2_page_beyond_totalPages_empty.2.2.1 [cW] ⟨2, 1⟩ "" (by decide) (by decide)

/-- Counterexample to claim C3 as stated: with positive page and limit
(both 1), `getTimesheets` returns more records than `limit`, because
the source never applies skip/limit to the Timesheet query. -/
theorem C3_counterexample :
    1 < ((getTimesheets [tsW, tsW2] ⟨1, 1⟩ "").1).data.length := by decide

/-- Shared pagination shape facts for an already-filtered store. -/
theorem paginate_shape {α : Type} (q : List α) (pg : IPagination)
    (hL : 0 < pg.limit) :
    (paginate q pg.page pg.limit).length ≤ pg.limit ∧
    (∀ i, i < (paginate q pg.page pg.limit).length →
      (paginate q pg.page pg.limit)[i]? = q[(pg.page - 1) * pg.limit + i]?) ∧
    q.length ≤ ceilDiv q.length pg.limit * pg.limit ∧
    ceilDiv q.length pg.limit * pg.limit < q.length + pg.limit := by
  refine ⟨paginate_length_le _ _ _, ?_, le_ceilDiv_mul _ _ hL,
    ceilDiv_mul_lt _ _ hL⟩
  intro i hi
  exact paginate_getElem _ _ _ _
    (lt_of_lt_of_le hi (paginate_length_le _ _ _))

/-- Claim C3 amended: for the list operations of ProjectStatus,
ActivityManager, Customer and ServiceCompany (every entity except
Timesheet), with
positive page and limit the data is the slice of the matching records
starting at offset `(page-1)*limit` of length at most `limit`,
`totalCount` is the number of matching records, `totalPages` is the
ceiling of `totalCount/limit` (characterized by the two bounds), and no
upper bound is enforced on `limit`; Timesheet's list instead returns
every matching record regardless of page and limit (its `totalPages`
still satisfies the ceiling bounds). -/
theorem C3_pagination_offset_limit_totalPages :
    (∀ (store : List ProjectStatus) (pg : IPagination) (search : String),
      0 < pg.page → 0 < pg.limit →
      ((getProjectStatuses store pg search).1.data.length ≤ pg.limit ∧
       (∀ i, i < (getProjectStatuses store pg search).1.data.length →
         (getProjectStatuses store pg search).1.data[i]? =
           (store.filter (projectStatusQuery search))[(pg.page - 1) * pg.limit + i]?) ∧
       (getProjectStatuses store pg search).1.totalCount =
         (store.filter (projectStatusQuery search)).length ∧
       (getProjectStatuses store pg search).1.totalCount ≤
         (getProjectStatuses store pg search).1.totalPages * pg.limit ∧
       (getProjectStatuses store pg search).1.totalPages * pg.limit <
         (getProjectStatuses store pg search).1.totalCount + pg.limit))
    ∧
    (∀ (store : List Manager) (pg : IPagination) (search : String),
      0 < pg.page → 0 < pg.limit →
      ((getActivityManagers store pg search).1.data.length ≤ pg.limit ∧
       (∀ i, i < (getActivityManagers store pg search).1.data.length →
         (getActivityManagers store pg search).1.data[i]? =
           (store.filter (managerQuery search))[(pg.page - 1) * pg.limit + i]?) ∧
       (getActivityManagers store pg search).1.totalCount =
         (store.filter (managerQuery search)).length ∧
       (getActivityManagers store pg search).1.totalCount ≤
         (getActivityManagers store pg search).1.totalPages * pg.limit ∧
       (getActivityManagers store pg search).1.totalPages * pg.limit <
         (getActivityManagers store pg search).1.totalCount + pg.limit))
    ∧
    (∀ (store : List Customer) (pg : IPagination) (search : String),
      0 < pg.page → 0 < pg.limit →
      ((getCustomers store pg search).1.data.length ≤ pg.limit ∧
       (∀ i, i < (getCustomers store pg search).1.data.length →
         (getCustomers store pg search).1.data[i]? =
           (store.filter (customerQuery search))[(pg.page - 1) * pg.limit + i]?) ∧
       (getCustomers store pg search).1.totalCount =
         (store.filter (customerQuery search)).length ∧
       (getCustomers store pg search).1.totalCount ≤
         (getCustomers store pg search).1.totalPages * pg.limit ∧
       (getCustomers store pg search).1.totalPages * pg.limit <
         (getCustomers store pg search).1.totalCount + pg.limit))
    ∧
    (∀ (store : List ServiceCompany) (pg : IPagination) (search : String),
      0 < pg.page → 0 < pg.limit →
      ((getServiceCompanies store pg search).1.data.length ≤ pg.limit ∧
       (∀ i, i < (getServiceCompanies store pg search).1.data.length →
         (getServiceCompanies store pg search).1.data[i]? =
           (store.filter (serviceCompanyQuery search))[(pg.page - 1) * pg.limit + i]?) ∧
       (getServiceCompanies store pg search).1.totalCount =
         (store.filter (serviceCompanyQuery search)).length ∧
       (getServiceCompanies store pg search).1.totalCount ≤
         (getServiceCompanies store pg search).1.totalPages * pg.limit ∧
       (getServiceCompanies store pg search).1.totalPages * pg.limit <
         (getServiceCompanies store pg search).1.totalCount + pg.limit))
    ∧
    (∀ (store : List ProjectStatus) (search : String) (L : Nat),
      (store.filter (projectStatusQuery search)).length ≤ L →
      ((getProjectStatuses store ⟨1, L⟩ search).1).data =
        store.filter (projectStatusQuery search))
    ∧
    (∀ (store : List Timesheet) (pg : IPagination) (search : String),
      0 < pg.limit →
      ((getTimesheets store pg search).1).data =
        store.filter (timesheetQuery search) ∧
      (getTimesheets store pg search).1.totalCount ≤
        (getTimesheets store pg search).1.totalPages * pg.limit ∧
      (getTimesheets store pg search).1.totalPages * pg.limit <
        (getTimesheets store pg search).1.totalCount + pg.limit) := by
  refine ⟨?_, ?_, ?_, ?_, ?_, ?_⟩
  · intro store pg search _ hL
    have h := paginate_shape (store.filter (projectStatusQuery search)) pg hL
    exact ⟨h.1, h.2.1, rfl, h.2.2.1, h.2.2.2⟩
  · intro store pg search _ hL
    have h := paginate_shape (store.filter (managerQuery search)) pg hL
    exact ⟨h.1, h.2.1, rfl, h.2.2.1, h.2.2.2⟩
  · intro store pg search _ hL
    have h := paginate_shape (store.filter (customerQuery search)) pg hL
    exact ⟨h.1, h.2.1, rfl, h.2.2.1, h.2.2.2⟩
  · intro store pg search _ hL
    have h := paginate_shape (store.filter (serviceCompanyQuery search)) pg hL
    exact ⟨h.1, h.2.1, rfl, h.2.2.1, h.2.2.2⟩
  · intro store search L hlen
    exact paginate_all _ _ hlen
  · intro store pg search hL
    exact ⟨rfl, le_ceilDiv_mul _ _ hL, ceilDiv_mul_lt _ _ hL⟩

/-- Witness for C3 (amended) at a concrete two-customer store with
page 2, limit 1. -/
theorem C3_witness :
    ((getCustomers [cW, cWdel] ⟨2, 1⟩ "").1.data.length ≤ 1 ∧
     (∀ i, i < ((getCustomers [cW, cWdel] ⟨2, 1⟩ "").1).data.length →
       ((getCustomers [cW, cWdel] ⟨2, 1⟩ "").1).data[i]? =
         ([cW, cWdel].filter (customerQuery ""))[(2 - 1) * 1 + i]?) ∧
     ((getCustomers [cW, cWdel] ⟨2, 1⟩ "").1).totalCount =
       ([cW, cWdel].filter (customerQuery "")).length ∧
     ((getCustomers [cW, cWdel] ⟨2, 1⟩ "").1).totalCount ≤
       ((getCustomers [cW, cWdel] ⟨2, 1⟩ "").1).totalPages * 1 ∧
     ((getCustomers [cW, cWdel] ⟨2, 1⟩ "").1).totalPages * 1 <
       ((getCustomers [cW, cWdel] ⟨2, 1⟩ "").1).totalCount + 1) :=
  C3_pagination_offset_limit_totalPages.2.2.1 [cW, cWdel] ⟨2, 1⟩ ""
    (by decide) (by decide)

/-- Claim C4: for a non-empty search string the list filter of each
entity includes a record exactly when its designated text field (name,
or file for Timesheet) contains the search term as a case-insensitive
substring (for Customer and Manager additionally restricted to
non-deleted records); "Acme Corp" matches "acme", "ACME" and "me co";
with an absent (empty) search string the filter is the identity,
restricted to non-deleted records where the query carries
`isDeleted: false`. -/
theorem C4_search_case_insensitive_substring :
    (∀ (s : String) (ps : ProjectStatus), s ≠ "" →
      (projectStatusQuery s ps = true ↔
        s.toList.map Char.toLower <:+: ps.name.toList.map Char.toLower))
    ∧
    (∀ (s : String) (sc : ServiceCompany), s ≠ "" →
      (serviceCompanyQuery s sc = true ↔
        s.toList.map Char.toLower <:+: sc.name.toList.map Char.toLower))
    ∧
    (∀ (s : String) (t : Timesheet), s ≠ "" →
      (timesheetQuery s t = true ↔
        s.toList.map Char.toLower <:+: t.file.toList.map Char.toLower))
    ∧
    (∀ (s : String) (c : Customer), s ≠ "" →
      (customerQuery s c = true ↔
        (c.isDeleted = false ∧
         s.toList.map Char.toLower <:+: c.name.toList.map Char.toLower)))
    ∧
    (∀ (s : String) (m : Manager), s ≠ "" →
      (managerQuery s m = true ↔
        (m.isDeleted = false ∧
         s.toList.map Char.toLower <:+: m.name.toList.map Char.toLower)))
    ∧ regexMatchI "acme" "Acme Corp" = true
    ∧ regexMatchI "ACME" "Acme Corp" = true
    ∧ regexMatchI "me co" "Acme Corp" = true
    ∧ (∀ ps : ProjectStatus, projectStatusQuery "" ps = true)
    ∧ (∀ sc : ServiceCompany, serviceCompanyQuery "" sc = true)
    ∧ (∀ t : Timesheet, timesheetQuery "" t = true)
    ∧ (∀ c : Customer, customerQuery "" c = !c.isDeleted)
    ∧ (∀ m : Manager, managerQuery "" m = !m.isDeleted) := by
  have hne : ∀ s : String, s ≠ "" → (s == "") = false := by
    intro s hs
    simp [hs]
  refine ⟨?_, ?_, ?_, ?_, ?_, by decide, by decide, by decide,
    fun ps => rfl, fun sc => rfl, fun t => rfl,
    fun c => by simp [customerQuery], fun m => by simp [managerQuery]⟩
  · intro s ps hs
    simp [projectStatusQuery, hne s hs, regexMatchI]
  · intro s sc hs
    simp [serviceCompanyQuery, hne s hs, regexMatchI]
  · intro s t hs
    simp [timesheetQuery, hne s hs, regexMatchI]
  · intro s c hs
    simp [customerQuery, hne s hs, regexMatchI, Bool.and_eq_true]
  · intro s m hs
    simp [managerQuery, hne s hs, regexMatchI, Bool.and_eq_true]

/-- Witness for C4: "acme" matches the service company named
"Acme Corp". -/
theorem C4_witness : serviceCompanyQuery "acme" scW = true :=
  (C4_search_case_insensitive_substring.2.1 "acme" scW (by decide)).mpr
    (by decide)

/-- Claim C5: on the Customer, ServiceCompany and Timesheet PATCH
routes, an update request providing none of the entity's updatable
fields is rejected by the validation middleware with status 400 and the
middleware's message, before the service/repository run — the store is
returned unchanged. -/
theorem C5_empty_update_rejected_with_400 :
    (∀ (store : List Customer) (id : String) (b : UpdateCustomer),
      b.email = none → b.isActive = none → b.isDeleted = none →
      b.name = none → b.password = none →
      customerPatchRoute store id b =
        (RouteResult.mwReject
          "At least one field (Email, Name, or Password) must be provided" 400,
         store))
    ∧
    (∀ (store : List ServiceCompany) (id : String) (b : UpdateServiceCompany),
      b.name = none → b.address = none → b.description = none →
      b.mapField = none → b.url = none →
      serviceCompanyPatchRoute store id b =
        (RouteResult.mwReject
          "At least one field (Name or Address) must be provided" 400,
         store))
    ∧
    (∀ (store : List Timesheet) (id : String) (b : UpdateTimesheet),
      b.activity = none → b.worker = none → b.manager = none →
      b.startTime = none → b.endTime = none → b.hoursSpent = none →
      b.date = none → b.file = none → b.isPending = none →
      b.isRejected = none → b.isAccepted = none → b.isResubmitted = none →
      b.rejectionReason = none →
      timesheetPatchRoute store id b =
        (RouteResult.mwReject
          "At least one of Activity, Worker, Manager, StartTime, EndTime, or File must be provided"
          400,
         store)) := by
  refine ⟨?_, ?_, ?_⟩
  · intro store id b h1 h2 h3 h4 h5
    obtain ⟨e, ia, idl, n, pw⟩ := b
    simp only at h1 h2 h3 h4 h5
    subst h1 h2 h3 h4 h5
    rfl
  · intro store id b h1 h2 h3 h4 h5
    obtain ⟨n, a, d, mp, u⟩ := b
    simp only at h1 h2 h3 h4 h5
    subst h1 h2 h3 h4 h5
    rfl
  · intro store id b h1 h2 h3 h4 h5 h6 h7 h8 h9 h10 h11 h12 h13
    obtain ⟨a, w, mg, st, et, hs, d, f, ip, ir, ia, irs, rr⟩ := b
    simp only at h1 h2 h3 h4 h5 h6 h7 h8 h9 h10 h11 h12 h13
    subst h1 h2 h3 h4 h5 h6 h7 h8 h9 h10 h11 h12 h13
    rfl

/-- Witness for C5 at a concrete store and the all-absent customer
update body. -/
theorem C5_witness :
    customerPatchRoute [cW] "c1" emptyUpdateCustomer =
      (RouteResult.mwReject
        "At least one field (Email, Name, or Password) must be provided" 400,
       [cW]) :=
  C5_empty_update_rejected_with_400.1 [cW] "c1" emptyUpdateCustomer
    rfl rfl rfl rfl rfl

/-- Counterexample to claim C6 as stated: ActivityManagerRepository
logs its not-found conditions under the label
"ManagerRepository-<op>", not under its own entity name
"ActivityManagerRepository-<op>". -/
theorem C6_counterexample :
    (getManagerById [] "m1").2 =
      [("Manager not found", "ManagerRepository-getManagerById")] ∧
    "ManagerRepository-getManagerById" ≠
      "ActivityManagerRepository-getManagerById" := by
  exact ⟨rfl, by decide⟩

/-- Claim C6 amended: every repository operation with a "not found"
condition — the getById, update and delete operations of all five
entities; list and create operations have none, their catch blocks
firing only on storage failures outside this model — logs that
condition exactly once with a fixed structured label
"<Name>Repository-<operation>" and the error value the caller receives
is exactly the logged error (rethrown unchanged); for the
ProjectStatus, ServiceCompany, Timesheet and Customer repositories the
label's entity part matches the repository's entity name, while
ActivityManagerRepository logs under "ManagerRepository". -/
theorem C6_errors_logged_and_rethrown :
    (∀ (store : List Customer) (id : String) (e : String),
      (getCustomerById store id).1 = Except.error e →
      (getCustomerById store id).2 =
        [(e, "CustomerRepository-getCustomerById")])
    ∧
    (∀ (store : List Manager) (id : String) (e : String),
      (getManagerById store id).1 = Except.error e →
      (getManagerById store id).2 =
        [(e, "ManagerRepository-getManagerById")])
    ∧
    (∀ (store : List ProjectStatus) (id : String) (e : String),
      (getProjectStatusById store id).1 = Except.error e →
      (getProjectStatusById store id).2 =
        [(e, "ProjectStatusRepository-getProjectStatusById")])
    ∧
    (∀ (store : List ServiceCompany) (id : String) (e : String),
      (getServiceCompanyById store id).1 = Except.error e →
      (getServiceCompanyById store id).2 =
        [(e, "ServiceCompanyRepository-getServiceCompanyById")])
    ∧
    (∀ (store : List Timesheet) (id : String) (e : String),
      (getTimesheetById store id).1 = Except.error e →
      (getTimesheetById store id).2 =
        [(e, "TimesheetRepository-getTimesheetById")])
    ∧
    (∀ (store : List Customer) (id : String) (data : UpdateCustomer) (e : String),
      (updateCustomer store id data).1.1 = Except.error e →
      (updateCustomer store id data).2 =
        [(e, "CustomerRepository-updateCustomer")])
    ∧
    (∀ (store : List Customer) (id : String) (e : String),
      (deleteCustomer store id).1.1 = Except.error e →
      (deleteCustomer store id).2 =
        [(e, "CustomerRepository-deleteCustomer")])
    ∧
    (∀ (store : List Manager) (id : String) (data : UpdateManager) (e : String),
      (updateManager store id data).1.1 = Except.error e →
      (updateManager store id data).2 =
        [(e, "ManagerRepository-updateManager")])
    ∧
    (∀ (store : List Manager) (id : String) (e : String),
      (deleteManager store id).1.1 = Except.error e →
      (deleteManager store id).2 =
        [(e, "ManagerRepository-deleteManager")])
    ∧
    (∀ (store : List ProjectStatus) (id : String) (e : String),
      (deleteProjectStatus store id).1.1 = Except.error e →
      (deleteProjectStatus store id).2 =
        [(e, "ProjectStatusRepository-deleteProjectStatus")])
    ∧
    (∀ (store : List ServiceCompany) (id : String) (data : UpdateServiceCompany) (e : String),
      (updateServiceCompany store id data).1.1 = Except.error e →
      (updateServiceCompany store id data).2 =
        [(e, "ServiceCompanyRepository-updateServiceCompany")])
    ∧
    (∀ (store : List ServiceCompany) (id : String) (e : String),
      (deleteServiceCompany store id).1.1 = Except.error e →
      (deleteServiceCompany store id).2 =
        [(e, "ServiceCompanyRepository-deleteServiceCompany")])
    ∧
    (∀ (store : List Timesheet) (id : String) (data : UpdateTimesheet) (e : String),
      (updateTimesheet store id data).1.1 = Except.error e →
      (updateTimesheet store id data).2 =
        [(e, "TimesheetRepository-updateTimesheet")])
    ∧
    (∀ (store : List Timesheet) (id : String) (e : String),
      (deleteTimesheet store id).1.1 = Except.error e →
      (deleteTimesheet store id).2 =
        [(e, "TimesheetRepository-deleteTimesheet")])
    ∧
    (∀ (store : List ProjectStatus) (id : String) (data : UpdateProjectStatus) (e : String),
      (updateProjectStatus store id data).1.1 = Except.error e →
      (updateProjectStatus store id data).2 =
        [(e, "ProjectStatusRepository-updateProjectStatus")]) := by
  refine ⟨?_, ?_, ?_, ?_, ?_, ?_, ?_, ?_, ?_, ?_, ?_, ?_, ?_, ?_, ?_⟩
  · intro store id e h
    cases hf : store.find? (fun c => c.id == id && !c.isDeleted) with
    | some x => simp [getCustomerById, hf] at h
    | none =>
      simp [getCustomerById, hf] at h
      simp [getCustomerById, hf, h]
  · intro store id e h
    cases hf : store.find? (fun m => m.id == id && !m.isDeleted) with
    | some x => simp [getManagerById, hf] at h
    | none =>
      simp [getManagerById, hf] at h
      simp [getManagerById, hf, h]
  · intro store id e h
    cases hf : store.find? (fun ps => ps.id == id) with
    | some x => simp [getProjectStatusById, hf] at h
    | none =>
      simp [getProjectStatusById, hf] at h
      simp [getProjectStatusById, hf, h]
  · intro store id e h
    cases hf : store.find? (fun sc => sc.id == id) with
    | some x => simp [getServiceCompanyById, hf] at h
    | none =>
      simp [getServiceCompanyById, hf] at h
      simp [getServiceCompanyById, hf, h]
  · intro store id e h
    cases hf : store.find? (fun t => t.id == id) with
    | some x => simp [getTimesheetById, hf] at h
    | none =>
      simp [getTimesheetById, hf] at h
      simp [getTimesheetById, hf, h]
  · intro store id data e h
    rcases hf : findOneAndUpdateBy (fun c => c.id == id && !c.isDeleted)
        (applyUpdateCustomer data) store with ⟨o, s2⟩
    cases o with
    | some c => simp [updateCustomer, hf] at h
    | none =>
      simp [updateCustomer, hf] at h
      simp [updateCustomer, hf, h]
  · intro store id e h
    rcases hf : findOneAndUpdateBy (fun c => c.id == id && !c.isDeleted)
        (fun c => { c with isDeleted := true }) store with ⟨o, s2⟩
    cases o with
    | some c => simp [deleteCustomer, hf] at h
    | none =>
      simp [deleteCustomer, hf] at h
      simp [deleteCustomer, hf, h]
  · intro store id data e h
    rcases hf : findOneAndUpdateBy (fun m => m.id == id && !m.isDeleted)
        (applyUpdateManager data) store with ⟨o, s2⟩
    cases o with
    | some m => simp [updateManager, hf] at h
    | none =>
      simp [updateManager, hf] at h
      simp [updateManager, hf, h]
  · intro store id e h
    rcases hf : findOneAndUpdateBy (fun m => m.id == id && !m.isDeleted)
        (fun m => { m with isDeleted := true }) store with ⟨o, s2⟩
    cases o with
    | some m => simp [deleteManager, hf] at h
    | none =>
      simp [deleteManager, hf] at h
      simp [deleteManager, hf, h]
  · intro store id e h
    rcases hf : findByIdAndDelete (fun ps => ps.id == id) store with ⟨o, s2⟩
    cases o with
    | some ps => simp [deleteProjectStatus, hf] at h
    | none =>
      simp [deleteProjectStatus, hf] at h
      simp [deleteProjectStatus, hf, h]
  · intro store id data e h
    rcases hf : findOneAndUpdateBy (fun sc => sc.id == id)
        (applyUpdateServiceCompany data) store with ⟨o, s2⟩
    cases o with
    | some sc => simp [updateServiceCompany, hf] at h
    | none =>
      simp [updateServiceCompany, hf] at h
      simp [updateServiceCompany, hf, h]
  · intro store id e h
    rcases hf : findByIdAndDelete (fun sc => sc.id == id) store with ⟨o, s2⟩
    cases o with
    | some sc => simp [deleteServiceCompany, hf] at h
    | none =>
      simp [deleteServiceCompany, hf] at h
      simp [deleteServiceCompany, hf, h]
  · intro store id data e h
    rcases hf : findOneAndUpdateBy (fun t => t.id == id)
        (applyUpdateTimesheet data) store with ⟨o, s2⟩
    cases o with
    | some t => simp [updateTimesheet, hf] at h
    | none =>
      simp [updateTimesheet, hf] at h
      simp [updateTimesheet, hf, h]
  · intro store id e h
    rcases hf : findByIdAndDelete (fun t => t.id == id) store with ⟨o, s2⟩
    cases o with
    | some t => simp [deleteTimesheet, hf] at h
    | none =>
      simp [deleteTimesheet, hf] at h
      simp [deleteTimesheet, hf, h]
  · intro store id data e h
    rcases hf : findOneAndUpdateBy (fun ps => ps.id == id)
        (applyUpdateProjectStatus data) store with ⟨o, s2⟩
    cases o with
    | some ps => simp [updateProjectStatus, hf] at h
    | none =>
      simp [updateProjectStatus, hf] at h
      simp [updateProjectStatus, hf, h]

/-- Witness for C6 (amended): the not-found error of getCustomerById on
the empty store is logged once under the customer label. -/
theorem C6_witness :
    (getCustomerById ([] : List Customer) "x").2 =
      [("Customer not found", "CustomerRepository-getCustomerById")] :=
  C6_errors_logged_and_rethrown.1 [] "x" "Customer not found" rfl

/-- Claim C8: for all three services present in the sources (Customer,
ServiceCompany, Timesheet), every successful create responds with
status 201 and the entity's creation message, and every other
successful service operation (list, get, update, delete) responds with
the default status 200. -/
theorem C8_success_statuses :
    (∀ (store : List Customer) (newId : String) (data : CreateCustomer),
      (createCustomerService store newId data).1 =
        RouteResult.svcOk (createCustomer store newId data).1.1
          "Customer created successfully" 201)
    ∧
    (∀ (store : List ServiceCompany) (newId : String) (data : CreateServiceCompany),
      (createServiceCompanyService store newId data).1 =
        RouteResult.svcOk (createServiceCompany store newId data).1.1
          "ServiceCompany created successfully" 201)
    ∧
    (∀ (store : List Timesheet) (newId : String) (data : CreateTimesheet),
      (createTimesheetService store newId data).1 =
        RouteResult.svcOk (createTimesheet store newId data).1.1
          "Timesheet created successfully" 201)
    ∧
    (∀ (store : List Customer) (pg : IPagination) (search : String),
      getCustomersService store pg search =
        RouteResult.svcOk (getCustomers store pg search).1
          "Customers retrieved successfully" 200)
    ∧
    (∀ (store : List Customer) (id : String) (c : Customer),
      (getCustomerById store id).1 = Except.ok c →
      getCustomerService store id =
        RouteResult.svcOk c "Customer retrieved successfully" 200)
    ∧
    (∀ (store : List Customer) (id : String) (data : UpdateCustomer)
        (c : Customer) (s2 : List Customer),
      (updateCustomer store id data).1 = (Except.ok c, s2) →
      updateCustomerService store id data =
        (RouteResult.svcOk c "Customer updated successfully" 200, s2))
    ∧
    (∀ (store : List Customer) (id : String) (c : Customer) (s2 : List Customer),
      (deleteCustomer store id).1 = (Except.ok c, s2) →
      deleteCustomerService store id =
        (RouteResult.svcOk c "Customer deleted successfully" 200, s2))
    ∧
    (∀ (store : List ServiceCompany) (pg : IPagination) (search : String),
      getServiceCompaniesService store pg search =
        RouteResult.svcOk (getServiceCompanies store pg search).1
          "ServiceCompanies retrieved successfully" 200)
    ∧
    (∀ (store : List ServiceCompany) (id : String) (sc : ServiceCompany),
      (getServiceCompanyById store id).1 = Except.ok sc →
      getServiceCompanyService store id =
        RouteResult.svcOk sc "ServiceCompany retrieved successfully" 200)
    ∧
    (∀ (store : List ServiceCompany) (id : String) (data : UpdateServiceCompany)
        (sc : ServiceCompany) (s2 : List ServiceCompany),
      (updateServiceCompany store id data).1 = (Except.ok sc, s2) →
      updateServiceCompanyService store id data =
        (RouteResult.svcOk sc "ServiceCompany updated successfully" 200, s2))
    ∧
    (∀ (store : List ServiceCompany) (id : String) (sc : ServiceCompany)
        (s2 : List ServiceCompany),
      (deleteServiceCompany store id).1 = (Except.ok sc, s2) →
      deleteServiceCompanyService store id =
        (RouteResult.svcOk sc "ServiceCompany deleted successfully" 200, s2))
    ∧
    (∀ (store : List Timesheet) (pg : IPagination) (search : String),
      getTimesheetsService store pg search =
        RouteResult.svcOk (getTimesheets store pg search).1
          "Timesheets retrieved successfully" 200)
    ∧
    (∀ (store : List Timesheet) (id : String) (t : Timesheet),
      (getTimesheetById store id).1 = Except.ok t →
      getTimesheetService store id =
        RouteResult.svcOk t "Timesheet retrieved successfully" 200)
    ∧
    (∀ (store : List Timesheet) (id : String) (data : UpdateTimesheet)
        (t : Timesheet) (s2 : List Timesheet),
      (updateTimesheet store id data).1 = (Except.ok t, s2) →
      updateTimesheetService store id data =
        (RouteResult.svcOk t "Timesheet updated successfully" 200, s2))
    ∧
    (∀ (store : List Timesheet) (id : String) (t : Timesheet)
        (s2 : List Timesheet),
      (deleteTimesheet store id).1 = (Except.ok t, s2) →
      deleteTimesheetService store id =
        (RouteResult.svcOk t "Timesheet deleted successfully" 200, s2)) := by
  refine ⟨fun store newId data => rfl, fun store newId data => rfl,
    fun store newId data => rfl, fun store pg search => rfl, ?_, ?_, ?_,
    fun store pg search => rfl, ?_, ?_, ?_,
    fun store pg search => rfl, ?_, ?_, ?_⟩
  · intro store id c h
    simp [getCustomerService, h]
  · intro store id data c s2 h
    simp [updateCustomerService, h]
  · intro store id c s2 h
    simp [deleteCustomerService, h]
  · intro store id sc h
    simp [getServiceCompanyService, h]
  · intro store id data sc s2 h
    simp [updateServiceCompanyService, h]
  · intro store id sc s2 h
    simp [deleteServiceCompanyService, h]
  · intro store id t h
    simp [getTimesheetService, h]
  · intro store id data t s2 h
    simp [updateTimesheetService, h]
  · intro store id t s2 h
    simp [deleteTimesheetService, h]

/-- Witness for C8 at a concrete store: a successful get responds with
status 200. -/
theorem C8_witness :
    getCustomerService [cW] "c1" =
      RouteResult.svcOk cW "Customer retrieved successfully" 200 :=
  C8_success_statuses.2.2.2.2.1 [cW] "c1" cW rfl

/-- Claim C10: the ad-hoc create middlewares test field presence by
JavaScript truthiness, so a create body in which a required field is
present but empty-string is rejected with the same 400 response as when
the field is absent. -/
theorem C10_empty_string_rejected_as_absent :
    (∀ (e n p : Option String),
      (e = some "" ∨ n = some "" ∨ p = some "") →
      customerCreateMw ⟨e, n, p⟩ =
        MwResult.reject "Email, Name, and Password must be provided" 400)
    ∧
    (∀ (n p : Option String),
      customerCreateMw ⟨some "", n, p⟩ = customerCreateMw ⟨none, n, p⟩)
    ∧
    (∀ (e p : Option String),
      customerCreateMw ⟨e, some "", p⟩ = customerCreateMw ⟨e, none, p⟩)
    ∧
    (∀ (e n : Option String),
      customerCreateMw ⟨e, n, some ""⟩ = customerCreateMw ⟨e, n, none⟩)
    ∧
    (∀ (n a : Option String),
      (n = some "" ∨ a = some "") →
      serviceCompanyCreateMw ⟨n, a⟩ =
        MwResult.reject "Name and Address must be provided" 400)
    ∧
    (∀ (a w mg st et f : Option String),
      (a = some "" ∨ w = some "" ∨ mg = some "" ∨ st = some "" ∨
       et = some "" ∨ f = some "") →
      timesheetCreateMw ⟨a, w, mg, st, et, f⟩ =
        MwResult.reject
          "Activity, Worker, Manager, StartTime, EndTime, and File must be provided"
          400) := by
  refine ⟨?_, ?_, ?_, ?_, ?_, ?_⟩
  · intro e n p h
    rcases h with h | h | h <;> subst h <;>
      simp [customerCreateMw, truthyStr]
  · intro n p
    rfl
  · intro e p
    simp [customerCreateMw, truthyStr]
  · intro e n
    simp [customerCreateMw, truthyStr]
  · intro n a h
    rcases h with h | h <;> subst h <;>
      simp [serviceCompanyCreateMw, truthyStr]
  · intro a w mg st et f h
    rcases h with h | h | h | h | h | h <;> subst h <;>
      simp [timesheetCreateMw, truthyStr]

/-- Witness for C10: a customer create body with every field present
but `email` empty is rejected exactly like a missing-field body. -/
theorem C10_witness :
    customerCreateMw ⟨some "", some "A", some "x"⟩ =
      MwResult.reject "Email, Name, and Password must be provided" 400 :=
  C10_empty_string_rejected_as_absent.1 (some "") (some "A") (some "x")
    (Or.inl rfl)

end ActivityBackend
